import Mathlib

/-!
Shallow embedding of `start-docdb-cluster.py` and `stop-docdb-cluster.py`
(rafaelvieira96/lambda-automations).  The two lambda sources are identical up
to the direction of the action (start vs stop); here one set of definitions is
parameterised by a `Direction`, and each definition's doc comment names the
source lines it embeds.  Provider behaviour (cluster listing, tag fetching,
success or exception of the state-changing call) is an explicit input:
a cluster descriptor carries its tags and whether the start/stop call would
raise, and the handler is a pure fold producing the observable effects
(log events, tag-fetch calls, state-changing provider calls, result entries).
-/

set_option autoImplicit false

namespace DocDb

/-- The two lambdas: `start-docdb-cluster.py` and `stop-docdb-cluster.py`. -/
inductive Direction where
  | start
  | stop
deriving DecidableEq, Repr

/-- Python truthiness of an optional string (`if not arn`, `session.region_name or ...`):
`None` and the empty string are falsy. -/
def pyTruthyStr : Option String → Bool
  | none => false
  | some s => !s.isEmpty

/-- Python `x or d` for `x` an optional string: yields `d` when `x` is `None`
or empty (falsy), else the string itself.  Embeds `session.region_name or "us-east-1"`
(start-docdb-cluster.py line 26, stop-docdb-cluster.py line 29). -/
def pyOrStr (x : Option String) (d : String) : String :=
  match x with
  | none => d
  | some s => if s.isEmpty then d else s

/-- Python `str.lower()` as used on the configuration and status strings:
character-wise lower-casing (the character-wise form of `String.toLower`,
written over the character list so that proofs can evaluate it). -/
def pyLower (s : String) : String := ⟨s.data.map Char.toLower⟩

/-- The raw environment variables as the process sees them, after `os.getenv`
defaulting: `TAG_KEY`, `TAG_VALUE`, `REGIONS`, `DRY_RUN`
(start-docdb-cluster.py lines 12-15, stop-docdb-cluster.py lines 12-17). -/
structure Env where
  tagKeyVar : String
  tagValueVar : String
  regionsVar : String
  dryRunVar : String
deriving DecidableEq, Repr

/-- The module-level configuration computed at load time. -/
structure Config where
  tagKey : String
  tagValue : String
  regions : List String
  dryRun : Bool
deriving DecidableEq, Repr

/-- `REGIONS = [r.strip() for r in os.getenv("REGIONS", "").split(",") if r.strip()]`
(start line 14, stop line 15). -/
def parseRegions (raw : String) : List String :=
  ((raw.splitOn ",").map String.trim).filter (fun r => !r.isEmpty)

/-- Load-time configuration: `TAG_KEY` as given, `TAG_VALUE` lower-cased once,
`REGIONS` parsed, `DRY_RUN` true exactly when the lower-cased string is `"true"`
(start lines 12-15, stop lines 12-17). -/
def loadConfig (e : Env) : Config :=
  { tagKey := e.tagKeyVar
    tagValue := pyLower e.tagValueVar
    regions := parseRegions e.regionsVar
    dryRun := pyLower e.dryRunVar == "true" }

/-- `_regions_to_check` (start lines 22-26, stop lines 24-29): the configured
list if non-empty (Python truthiness of a list), else the ambient default
region with `"us-east-1"` as fallback for a falsy (absent or empty) default. -/
def regionsToCheck (cfg : Config) (ambient : Option String) : List String :=
  if !cfg.regions.isEmpty then cfg.regions
  else [pyOrStr ambient "us-east-1"]

/-- Lookup in the tag dictionary built by `_cluster_tags`
(`{t["Key"]: t.get("Value", "") for t in ...}`, start lines 28-30, stop
lines 31-34): a Python dict comprehension lets a later duplicate key
overwrite an earlier one, so lookup returns the value of the last entry
with the given key, compared exactly (case-sensitively). -/
def dictGet (tags : List (String × String)) (k : String) : Option String :=
  (tags.reverse.find? (fun kv => kv.1 == k)).map (fun kv => kv.2)

/-- `_should_start` (start lines 32-34) and `_should_stop` (stop lines 36-38),
whose bodies are identical: `val = tags.get(TAG_KEY)` — an exact dict lookup —
then `(val is not None) and (str(val).lower() == TAG_VALUE)`; `tagValue` is the
already-lower-cased module constant. -/
def shouldAct (tagKey tagValue : String) (tags : List (String × String)) : Bool :=
  match dictGet tags tagKey with
  | none => false
  | some v => pyLower v == tagValue

/-- The exception kinds distinguished by the handler's `try`/`except`
(start lines 81-84, stop lines 86-89): the provider's
`InvalidDBClusterStateFault`, or any other exception. -/
inductive ProviderExn where
  | invalidState
  | otherError
deriving DecidableEq, Repr

/-- A cluster descriptor as one element of a `describe_db_clusters` page,
together with the provider behaviour attached to it: `tags` is what
`list_tags_for_resource` would return for its ARN, and `raises` is the
exception (if any) that the state-changing start/stop call would raise. -/
structure Cluster where
  id : String
  arn : Option String
  status : String
  tags : List (String × String)
  raises : Option ProviderExn
deriving DecidableEq, Repr

/-- One record appended to `results`
(start line 80, stop line 85): `{"cluster": ..., "region": ..., "action": ...}`. -/
structure ActionResult where
  cluster : String
  region : String
  action : String
deriving DecidableEq, Repr

/-- The log lines the two handlers emit, abstracted to their kind and data. -/
inductive LogEvent where
  /-- "Verificando DocumentDB clusters na região: {region}" -/
  | regionScan (region : String)
  /-- "Cluster {id} sem ARN — ignorando." (warning) -/
  | missingArn (clusterId : String)
  /-- The per-cluster structured JSON line (start lines 63-69, stop lines 68-74):
  cluster id, region, lower-cased status, eligibility, and the tags whose key
  matches the configured key case-insensitively. -/
  | structured (clusterId region status : String) (eligible : Bool)
      (matching : List (String × String))
  /-- "não está '...' (status=...). Ignorando." (info) -/
  | skipStatus (clusterId status : String)
  /-- "[DRY_RUN] start_db_cluster/stop_db_cluster({id})" (info) -/
  | dryRunPlan (clusterId : String)
  /-- "Start/Stop iniciado para cluster: {id}" (info) -/
  | actionDone (clusterId : String)
  /-- "Estado inválido para ligar/parar cluster {id}." (warning) -/
  | invalidStateWarn (clusterId : String)
  /-- "Falha ao ligar/parar cluster {id}: {e}" (exception log) -/
  | actionFailure (clusterId : String)
deriving DecidableEq, Repr

/-- Whether a log event is the per-cluster structured JSON line. -/
def LogEvent.isStructured : LogEvent → Bool
  | .structured _ _ _ _ _ => true
  | _ => false

/-- The observable effects of (part of) a handler run: log events in order,
ARNs passed to `list_tags_for_resource`, cluster ids passed to the
state-changing `start_db_cluster`/`stop_db_cluster` call, cluster ids for
which `_start_cluster`/`_stop_cluster` was invoked at all, and the
accumulated `results` list. -/
structure Outcome where
  logs : List LogEvent
  tagFetches : List String
  providerCalls : List String
  actionAttempts : List String
  results : List ActionResult
deriving DecidableEq, Repr

/-- The empty outcome. -/
def Outcome.empty : Outcome := ⟨[], [], [], [], []⟩

/-- Sequencing of effects. -/
def Outcome.append (a b : Outcome) : Outcome :=
  ⟨a.logs ++ b.logs, a.tagFetches ++ b.tagFetches,
   a.providerCalls ++ b.providerCalls, a.actionAttempts ++ b.actionAttempts,
   a.results ++ b.results⟩

/-- The status string gating the action: `"stopped"` for the start direction
(start line 74), `"available"` for the stop direction (stop line 79). -/
def gateStatus : Direction → String
  | .start => "stopped"
  | .stop => "available"

/-- `"started" if not DRY_RUN else "dry-run"` (start line 80) and
`"stopped" if not DRY_RUN else "dry-run"` (stop line 85). -/
def actionName (dir : Direction) (dryRun : Bool) : String :=
  if dryRun then "dry-run"
  else match dir with
    | .start => "started"
    | .stop => "stopped"

/-- The key under which the results list appears in the returned summary:
`"started"` (start line 87) or `"stopped"` (stop line 92). -/
def summaryKey : Direction → String
  | .start => "started"
  | .stop => "stopped"

/-- The structured JSON log line for one cluster (start lines 63-69, stop
lines 68-74); its tag subset keeps the tags whose key matches the configured
key case-insensitively (`k.lower() == TAG_KEY.lower()`). -/
def structuredLog (cfg : Config) (region : String) (c : Cluster) : LogEvent :=
  .structured c.id region (pyLower c.status)
    (shouldAct cfg.tagKey cfg.tagValue c.tags)
    (c.tags.filter (fun kv => pyLower kv.1 == pyLower cfg.tagKey))

/-- The body of the inner per-cluster loop of `handler`
(start lines 51-84, stop lines 55-89), including `_start_cluster`
(start lines 36-41) / `_stop_cluster` (stop lines 40-45) inlined:
skip (warning) on a falsy ARN; otherwise fetch tags, log the structured line,
skip if not tag-eligible, skip (info) if the lower-cased status misses the
gate, else attempt the action: in dry-run only log and append a `"dry-run"`
entry; otherwise issue the provider call and append an entry unless the call
raises, in which case the exception is caught and only logged. -/
def processCluster (cfg : Config) (dir : Direction) (region : String) (c : Cluster) :
    Outcome :=
  if pyTruthyStr c.arn = false then
    ⟨[.missingArn c.id], [], [], [], []⟩
  else if shouldAct cfg.tagKey cfg.tagValue c.tags = false then
    ⟨[structuredLog cfg region c], [c.arn.getD ""], [], [], []⟩
  else if ¬(pyLower c.status = gateStatus dir) then
    ⟨[structuredLog cfg region c, .skipStatus c.id (pyLower c.status)],
     [c.arn.getD ""], [], [], []⟩
  else if cfg.dryRun = true then
    ⟨[structuredLog cfg region c, .dryRunPlan c.id], [c.arn.getD ""], [], [c.id],
     [⟨c.id, region, actionName dir cfg.dryRun⟩]⟩
  else
    match c.raises with
    | none =>
        ⟨[structuredLog cfg region c, .actionDone c.id], [c.arn.getD ""],
         [c.id], [c.id], [⟨c.id, region, actionName dir cfg.dryRun⟩]⟩
    | some .invalidState =>
        ⟨[structuredLog cfg region c, .invalidStateWarn c.id], [c.arn.getD ""],
         [c.id], [c.id], []⟩
    | some .otherError =>
        ⟨[structuredLog cfg region c, .actionFailure c.id], [c.arn.getD ""],
         [c.id], [c.id], []⟩

/-- The per-region loop of `handler`: fold the per-cluster step over the
region's clusters (pagination flattened), threading the accumulated effects. -/
def processRegion (cfg : Config) (dir : Direction) (region : String)
    (clusters : List Cluster) (acc : Outcome) : Outcome :=
  clusters.foldl (fun a c => a.append (processCluster cfg dir region c)) acc

/-- `handler` (start lines 43-84, stop lines 47-89) up to its return
statement: iterate the resolved regions, log the region scan, and process
every cluster the world reports for that region. -/
def runHandler (cfg : Config) (dir : Direction) (ambient : Option String)
    (world : String → List Cluster) : Outcome :=
  (regionsToCheck cfg ambient).foldl
    (fun a region =>
      processRegion cfg dir region (world region)
        (a.append ⟨[.regionScan region], [], [], [], []⟩))
    Outcome.empty

/-- The dictionary `handler` returns (start lines 86-92, stop lines 91-97):
exactly the results list under the direction's key, the dry-run flag, the
resolved region list, and the configured tag key and (lower-cased) tag value. -/
structure HandlerOutput where
  resultsKey : String
  results : List ActionResult
  dryRun : Bool
  regions : List String
  tagKey : String
  tagValue : String
deriving DecidableEq, Repr

/-- `handler`'s return value. -/
def handlerReturn (cfg : Config) (dir : Direction) (ambient : Option String)
    (world : String → List Cluster) : HandlerOutput :=
  { resultsKey := summaryKey dir
    results := (runHandler cfg dir ambient world).results
    dryRun := cfg.dryRun
    regions := regionsToCheck cfg ambient
    tagKey := cfg.tagKey
    tagValue := cfg.tagValue }

end DocDb

namespace DocDb

/-! ### Helper lemmas -/

/-- `shouldAct` is true exactly when the exact-key lookup finds a value whose
lower-casing is the (already lower-cased) configured value. -/
theorem shouldAct_eq_true_iff (tagKey tagValue : String) (tags : List (String × String)) :
    shouldAct tagKey tagValue tags = true ↔
      ∃ v, dictGet tags tagKey = some v ∧ pyLower v = tagValue := by
  unfold shouldAct
  cases h : dictGet tags tagKey with
  | none => simp
  | some v => simp [h]

theorem Outcome.append_empty (a : Outcome) : a.append Outcome.empty = a := by
  cases a
  simp [Outcome.append, Outcome.empty]

theorem Outcome.empty_append (a : Outcome) : Outcome.empty.append a = a := by
  cases a
  simp [Outcome.append, Outcome.empty]

theorem Outcome.append_assoc (a b c : Outcome) :
    (a.append b).append c = a.append (b.append c) := by
  cases a
  cases b
  cases c
  simp [Outcome.append]

/-- In a non-dry run, every invocation of the action executor issues exactly
one provider call (even one that raises), so the two effect lists coincide. -/
theorem providerCalls_eq_attempts (cfg : Config) (dir : Direction)
    (region : String) (c : Cluster) (h : cfg.dryRun = false) :
    (processCluster cfg dir region c).providerCalls =
      (processCluster cfg dir region c).actionAttempts := by
  by_cases h1 : pyTruthyStr c.arn = false
  · simp [processCluster, h1]
  · by_cases h2 : shouldAct cfg.tagKey cfg.tagValue c.tags = false
    · simp [processCluster, h1, h2]
    · by_cases h3 : pyLower c.status = gateStatus dir
      · cases hr : c.raises with
        | none => simp [processCluster, h1, h2, h3, h, hr]
        | some ex => cases ex <;> simp [processCluster, h1, h2, h3, h, hr]
      · simp [processCluster, h1, h2, h3]

/-! ### C1 -/

/-- The eligibility predicate as claim C1 states it (spec-worded, for
comparison with `shouldAct`): the tag set contains the configured key under a
case-insensitive key match with the matched value, lower-cased, equal to the
configured value lower-cased. -/
def eligibleSpecC1 (tagKey tagValueRaw : String) (tags : List (String × String)) : Bool :=
  tags.any (fun kv =>
    pyLower kv.1 == pyLower tagKey && pyLower kv.2 == pyLower tagValueRaw)

/-- C1 counterexample: with the default configuration (key
`work-on-business-time`, value `true`), a tag set whose key differs only in
case is eligible under the claim's case-insensitive key match, but the code's
predicate — an exact `dict.get` on the configured key — rejects it. -/
theorem C1_counterexample :
    eligibleSpecC1 "work-on-business-time" "true"
      [("Work-On-Business-Time", "true")] = true ∧
    shouldAct "work-on-business-time" "true"
      [("Work-On-Business-Time", "true")] = false := by
  constructor
  · decide
  · decide

/-- C1 amended: the eligibility predicate returns true iff the tag set
contains the configured key under an exact (case-sensitive) key match and the
value stored for it, lower-cased, equals the configured value lower-cased;
absence of the key yields false, not an error. -/
theorem C1_eligibility (tagKey v : String) (tags : List (String × String)) :
    (shouldAct tagKey (pyLower v) tags = true ↔
      ∃ w, dictGet tags tagKey = some w ∧ pyLower w = pyLower v) ∧
    (dictGet tags tagKey = none → shouldAct tagKey (pyLower v) tags = false) := by
  refine ⟨shouldAct_eq_true_iff tagKey (pyLower v) tags, fun h => ?_⟩
  simp [shouldAct, h]

/-- C1 witness: a matching key with a differently-cased value is eligible; a
tag set without the key is not. -/
theorem C1_eligibility_witness :
    shouldAct "work-on-business-time" "true"
      [("work-on-business-time", "TRUE")] = true ∧
    shouldAct "work-on-business-time" "true" [("other", "x")] = false := by
  have e : pyLower "true" = "true" := by decide
  constructor
  · have h := (C1_eligibility "work-on-business-time" "true"
      [("work-on-business-time", "TRUE")]).1
    rw [e] at h
    exact h.mpr ⟨"TRUE", by decide, by decide⟩
  · have h := (C1_eligibility "work-on-business-time" "true" [("other", "x")]).2
    rw [e] at h
    exact h (by decide)

/-! ### C7 -/

/-- C7: the region resolver is total and returns a non-empty list: a
non-empty configured list is returned unchanged, and an empty one resolves to
exactly one region — the ambient default, or `"us-east-1"` when no (non-empty)
default is known. -/
theorem C7_region_resolver (cfg : Config) (ambient : Option String) :
    regionsToCheck cfg ambient ≠ [] ∧
    (cfg.regions ≠ [] → regionsToCheck cfg ambient = cfg.regions) ∧
    (cfg.regions = [] →
      (regionsToCheck cfg ambient).length = 1 ∧
      (ambient = none → regionsToCheck cfg ambient = ["us-east-1"]) ∧
      ∀ r, ambient = some r → ¬r.isEmpty → regionsToCheck cfg ambient = [r]) := by
  unfold regionsToCheck
  cases hr : cfg.regions with
  | nil =>
    refine ⟨by simp [pyOrStr], by simp, fun _ => ⟨by simp, fun ha => by simp [ha, pyOrStr], ?_⟩⟩
    intro r ha hne
    simp [ha, pyOrStr, hne]
  | cons x xs =>
    refine ⟨by simp, fun _ => by simp, fun h => absurd h (by simp)⟩

/-- C7 witness: with no configured regions and no ambient default, the
resolver yields exactly the hard-coded fallback. -/
theorem C7_region_resolver_witness :
    regionsToCheck ⟨"work-on-business-time", "true", [], false⟩ none = ["us-east-1"] :=
  ((C7_region_resolver ⟨"work-on-business-time", "true", [], false⟩ none).2.2 rfl).2.1 rfl

end DocDb

namespace DocDb

/-! ### Characterisation of the handler fold -/

/-- Sequential composition of a list of outcomes. -/
def outcomeJoin : List Outcome → Outcome
  | [] => Outcome.empty
  | o :: rest => o.append (outcomeJoin rest)

theorem processRegion_cons (cfg : Config) (dir : Direction) (region : String)
    (c : Cluster) (rest : List Cluster) (acc : Outcome) :
    processRegion cfg dir region (c :: rest) acc
      = processRegion cfg dir region rest (acc.append (processCluster cfg dir region c)) :=
  rfl

theorem processRegion_eq (cfg : Config) (dir : Direction) (region : String)
    (clusters : List Cluster) (acc : Outcome) :
    processRegion cfg dir region clusters acc
      = acc.append (outcomeJoin (clusters.map (processCluster cfg dir region))) := by
  induction clusters generalizing acc with
  | nil => simp [processRegion, outcomeJoin, Outcome.append_empty]
  | cons c rest ih =>
    rw [processRegion_cons, ih, Outcome.append_assoc]
    rfl

theorem runRegions_eq (cfg : Config) (dir : Direction) (world : String → List Cluster)
    (regions : List String) (acc : Outcome) :
    regions.foldl (fun a region => processRegion cfg dir region (world region)
        (a.append ⟨[LogEvent.regionScan region], [], [], [], []⟩)) acc
      = acc.append (outcomeJoin (regions.map (fun region =>
          Outcome.append ⟨[LogEvent.regionScan region], [], [], [], []⟩
            (outcomeJoin ((world region).map (processCluster cfg dir region)))))) := by
  induction regions generalizing acc with
  | nil => simp [outcomeJoin, Outcome.append_empty]
  | cons r rest ih =>
    simp only [List.foldl_cons, List.map_cons, outcomeJoin]
    rw [processRegion_eq, ih]
    simp [Outcome.append_assoc]

theorem runHandler_eq (cfg : Config) (dir : Direction) (ambient : Option String)
    (world : String → List Cluster) :
    runHandler cfg dir ambient world
      = outcomeJoin ((regionsToCheck cfg ambient).map (fun region =>
          Outcome.append ⟨[LogEvent.regionScan region], [], [], [], []⟩
            (outcomeJoin ((world region).map (processCluster cfg dir region))))) := by
  unfold runHandler
  rw [runRegions_eq]
  exact Outcome.empty_append _

theorem outcomeJoin_results (l : List Outcome) :
    (outcomeJoin l).results = (l.map Outcome.results).flatten := by
  induction l with
  | nil => rfl
  | cons o rest ih => simp [outcomeJoin, Outcome.append, ih]

theorem outcomeJoin_providerCalls_eq_nil (l : List Outcome)
    (h : ∀ o ∈ l, o.providerCalls = []) : (outcomeJoin l).providerCalls = [] := by
  induction l with
  | nil => rfl
  | cons o rest ih =>
    simp only [outcomeJoin, Outcome.append]
    rw [h o (by simp), ih (fun x hx => h x (by simp [hx]))]
    rfl

theorem outcomeJoin_results_mem (l : List Outcome) (r : ActionResult)
    (h : r ∈ (outcomeJoin l).results) : ∃ o ∈ l, r ∈ o.results := by
  induction l with
  | nil => simp [outcomeJoin, Outcome.empty] at h
  | cons o rest ih =>
    simp only [outcomeJoin, Outcome.append, List.mem_append] at h
    rcases h with h | h
    · exact ⟨o, by simp, h⟩
    · rcases ih h with ⟨u, hu, hr⟩
      exact ⟨u, by simp [hu], hr⟩

/-! ### Characterisation of the per-cluster step -/

/-- The handler reaches the action executor for a cluster exactly when the
ARN is usable, the tag predicate holds, and the lower-cased status equals the
direction's gate. -/
def reachesAction (cfg : Config) (dir : Direction) (c : Cluster) : Bool :=
  pyTruthyStr c.arn && shouldAct cfg.tagKey cfg.tagValue c.tags
    && (pyLower c.status == gateStatus dir)

/-- An action is successfully initiated — a result entry recorded — exactly
when the executor is reached and either dry-run is on (no provider call to
fail) or the provider call does not raise. -/
def actionInitiated (cfg : Config) (dir : Direction) (c : Cluster) : Bool :=
  reachesAction cfg dir c && (cfg.dryRun || c.raises.isNone)

theorem processCluster_actionAttempts (cfg : Config) (dir : Direction) (region : String)
    (c : Cluster) :
    (processCluster cfg dir region c).actionAttempts
      = (if reachesAction cfg dir c = true then [c.id] else []) := by
  cases h1 : pyTruthyStr c.arn with
  | false => simp [processCluster, reachesAction, h1]
  | true =>
    cases h2 : shouldAct cfg.tagKey cfg.tagValue c.tags with
    | false => simp [processCluster, reachesAction, h1, h2]
    | true =>
      by_cases h3 : pyLower c.status = gateStatus dir
      · cases h4 : cfg.dryRun with
        | true => simp [processCluster, reachesAction, h1, h2, h3, h4]
        | false =>
          cases hr : c.raises with
          | none => simp [processCluster, reachesAction, h1, h2, h3, h4, hr]
          | some ex =>
            cases ex <;> simp [processCluster, reachesAction, h1, h2, h3, h4, hr]
      · simp [processCluster, reachesAction, h1, h2, h3]

theorem processCluster_results (cfg : Config) (dir : Direction) (region : String)
    (c : Cluster) :
    (processCluster cfg dir region c).results
      = (if actionInitiated cfg dir c = true
         then [(⟨c.id, region, actionName dir cfg.dryRun⟩ : ActionResult)] else []) := by
  cases h1 : pyTruthyStr c.arn with
  | false => simp [processCluster, actionInitiated, reachesAction, h1]
  | true =>
    cases h2 : shouldAct cfg.tagKey cfg.tagValue c.tags with
    | false => simp [processCluster, actionInitiated, reachesAction, h1, h2]
    | true =>
      by_cases h3 : pyLower c.status = gateStatus dir
      · cases h4 : cfg.dryRun with
        | true => simp [processCluster, actionInitiated, reachesAction, h1, h2, h3, h4]
        | false =>
          cases hr : c.raises with
          | none => simp [processCluster, actionInitiated, reachesAction, h1, h2, h3, h4, hr]
          | some ex =>
            cases ex <;>
              simp [processCluster, actionInitiated, reachesAction, h1, h2, h3, h4, hr]
      · simp [processCluster, actionInitiated, reachesAction, h1, h2, h3]

theorem processCluster_providerCalls_dryRun (cfg : Config) (dir : Direction)
    (region : String) (c : Cluster) (h : cfg.dryRun = true) :
    (processCluster cfg dir region c).providerCalls = [] := by
  cases h1 : pyTruthyStr c.arn with
  | false => simp [processCluster, h1]
  | true =>
    cases h2 : shouldAct cfg.tagKey cfg.tagValue c.tags with
    | false => simp [processCluster, h1, h2]
    | true =>
      by_cases h3 : pyLower c.status = gateStatus dir
      · simp [processCluster, h1, h2, h3, h]
      · simp [processCluster, h1, h2, h3]

theorem processCluster_structured_count (cfg : Config) (dir : Direction) (region : String)
    (c : Cluster) (harn : pyTruthyStr c.arn = true) :
    ((processCluster cfg dir region c).logs.filter LogEvent.isStructured).length = 1 := by
  cases h2 : shouldAct cfg.tagKey cfg.tagValue c.tags with
  | false => simp [processCluster, harn, h2, structuredLog, LogEvent.isStructured]
  | true =>
    by_cases h3 : pyLower c.status = gateStatus dir
    · cases h4 : cfg.dryRun with
      | true => simp [processCluster, harn, h2, h3, h4, structuredLog, LogEvent.isStructured]
      | false =>
        cases hr : c.raises with
        | none => simp [processCluster, harn, h2, h3, h4, hr, structuredLog, LogEvent.isStructured]
        | some ex =>
          cases ex <;>
            simp [processCluster, harn, h2, h3, h4, hr, structuredLog, LogEvent.isStructured]
    · simp [processCluster, harn, h2, h3, structuredLog, LogEvent.isStructured]

/-! ### Shared concrete examples -/

/-- The repository's default configuration with one region and dry-run off. -/
def cfgLive : Config := ⟨"work-on-business-time", "true", ["r1"], false⟩

/-- The same configuration with dry-run on. -/
def cfgDry : Config := ⟨"work-on-business-time", "true", ["r1"], true⟩

/-- A tag-eligible stopped cluster whose action call succeeds. -/
def clStopped : Cluster :=
  ⟨"c-stopped", some "arn-1", "stopped", [("work-on-business-time", "True")], none⟩

/-- A tag-eligible stopped cluster whose action call raises a generic exception. -/
def clRaises : Cluster :=
  ⟨"c-raise", some "arn-2", "stopped", [("work-on-business-time", "true")],
   some ProviderExn.otherError⟩

/-- A second tag-eligible stopped cluster whose action call succeeds. -/
def clAfter : Cluster :=
  ⟨"c-after", some "arn-3", "stopped", [("work-on-business-time", "true")], none⟩

/-- A cluster descriptor lacking the ARN field. -/
def clNoArn : Cluster :=
  ⟨"c-noarn", none, "stopped", [("work-on-business-time", "true")], none⟩

end DocDb

namespace DocDb

/-! ### C2 -/

/-- C2 counterexample: `c-raise` is tag-eligible and in the gate status
`stopped`, the action call is attempted (and issued to the provider), yet —
because the call raises — no entry is appended to the aggregated result list,
against the claim that one action call and one result entry always go
together for such a cluster. -/
theorem C2_counterexample :
    (runHandler cfgLive Direction.start none (fun _ => [clRaises])).actionAttempts
      = ["c-raise"] ∧
    (runHandler cfgLive Direction.start none (fun _ => [clRaises])).results = [] := by
  constructor
  · rfl
  · rfl

/-- C2 amended: for every processed cluster with a usable ARN: if it is
tag-eligible and its lower-cased status matches the direction's gate, exactly
one action call is attempted, and one entry is appended unless the (non
dry-run) call raises an exception, in which case none is; if it is not
tag-eligible or its status misses the gate, zero action calls occur and no
result entry is produced, but exactly one structured log line is still
emitted for it. -/
theorem C2_per_cluster (cfg : Config) (dir : Direction) (region : String) (c : Cluster)
    (harn : pyTruthyStr c.arn = true) :
    ((shouldAct cfg.tagKey cfg.tagValue c.tags = true ∧ pyLower c.status = gateStatus dir) →
      (processCluster cfg dir region c).actionAttempts = [c.id] ∧
      (processCluster cfg dir region c).results =
        (if cfg.dryRun || c.raises.isNone
         then [(⟨c.id, region, actionName dir cfg.dryRun⟩ : ActionResult)] else [])) ∧
    ((shouldAct cfg.tagKey cfg.tagValue c.tags = false ∨ ¬pyLower c.status = gateStatus dir) →
      (processCluster cfg dir region c).actionAttempts = [] ∧
      (processCluster cfg dir region c).results = [] ∧
      ((processCluster cfg dir region c).logs.filter LogEvent.isStructured).length = 1) := by
  constructor
  · rintro ⟨h2, h3⟩
    refine ⟨?_, ?_⟩
    · rw [processCluster_actionAttempts]
      simp [reachesAction, harn, h2, h3]
    · rw [processCluster_results]
      simp [actionInitiated, reachesAction, harn, h2, h3]
  · intro h23
    have hreach : reachesAction cfg dir c = false := by
      cases h23 with
      | inl h2 => simp [reachesAction, h2]
      | inr h3 => simp [reachesAction, h3]
    refine ⟨?_, ?_, processCluster_structured_count cfg dir region c harn⟩
    · rw [processCluster_actionAttempts]
      simp [hreach]
    · rw [processCluster_results]
      simp [actionInitiated, hreach]

/-- C2 witness: the eligible stopped cluster gets exactly one attempt and one
`started` entry; an ineligible cluster gets neither but keeps its one
structured log line. -/
theorem C2_per_cluster_witness :
    ((processCluster cfgLive Direction.start "r1" clStopped).actionAttempts
        = ["c-stopped"] ∧
      (processCluster cfgLive Direction.start "r1" clStopped).results
        = [⟨"c-stopped", "r1", "started"⟩]) ∧
    ((processCluster cfgLive Direction.stop "r1" clStopped).actionAttempts = [] ∧
      ((processCluster cfgLive Direction.stop "r1" clStopped).logs.filter
        LogEvent.isStructured).length = 1) := by
  constructor
  · have h := (C2_per_cluster cfgLive Direction.start "r1" clStopped (by decide)).1
      ⟨by decide, by decide⟩
    refine ⟨h.1, ?_⟩
    rw [h.2]
    decide
  · have h := (C2_per_cluster cfgLive Direction.stop "r1" clStopped (by decide)).2
      (Or.inr (by decide))
    exact ⟨h.1, h.2.2⟩

/-! ### C3 -/

/-- C3: for a tag-eligible cluster with a usable ARN, the status gate is
case-insensitive — the action is attempted exactly when the lower-cased
reported status equals the direction's gate string (`stopped` for start,
`available` for stop); any other status is skipped without an attempt. -/
theorem C3_status_gate (cfg : Config) (dir : Direction) (region : String) (c : Cluster)
    (harn : pyTruthyStr c.arn = true)
    (helig : shouldAct cfg.tagKey cfg.tagValue c.tags = true) :
    ((processCluster cfg dir region c).actionAttempts = [c.id] ↔
      pyLower c.status = gateStatus dir) ∧
    (¬pyLower c.status = gateStatus dir →
      (processCluster cfg dir region c).actionAttempts = []) := by
  constructor
  · constructor
    · intro h
      by_contra h3
      have hb : reachesAction cfg dir c = false := by simp [reachesAction, h3]
      rw [processCluster_actionAttempts, hb] at h
      simp at h
    · intro h3
      rw [processCluster_actionAttempts]
      simp [reachesAction, harn, helig, h3]
  · intro h3
    have hb : reachesAction cfg dir c = false := by simp [reachesAction, h3]
    rw [processCluster_actionAttempts, hb]
    rfl

/-- C3 witness: the stopped cluster is acted on by the start direction and
skipped by the stop direction. -/
theorem C3_status_gate_witness :
    (processCluster cfgLive Direction.start "r1" clStopped).actionAttempts
      = ["c-stopped"] ∧
    (processCluster cfgLive Direction.stop "r1" clStopped).actionAttempts = [] := by
  constructor
  · exact ((C3_status_gate cfgLive Direction.start "r1" clStopped (by decide)
      (by decide)).1).mpr (by decide)
  · exact (C3_status_gate cfgLive Direction.stop "r1" clStopped (by decide)
      (by decide)).2 (by decide)

/-! ### C4 -/

/-- C4: with the dry-run flag set, no state-changing provider call is issued
for any cluster in any region of the invocation, and every recorded result
entry has action `dry-run`. -/
theorem C4_dry_run (cfg : Config) (dir : Direction) (ambient : Option String)
    (world : String → List Cluster) (h : cfg.dryRun = true) :
    (runHandler cfg dir ambient world).providerCalls = [] ∧
    ∀ r ∈ (runHandler cfg dir ambient world).results, r.action = "dry-run" := by
  rw [runHandler_eq]
  constructor
  · apply outcomeJoin_providerCalls_eq_nil
    intro o ho
    simp only [List.mem_map] at ho
    rcases ho with ⟨region, _, rfl⟩
    simp only [Outcome.append, List.nil_append]
    apply outcomeJoin_providerCalls_eq_nil
    intro u hu
    simp only [List.mem_map] at hu
    rcases hu with ⟨c, _, rfl⟩
    exact processCluster_providerCalls_dryRun cfg dir region c h
  · intro r hr
    rcases outcomeJoin_results_mem _ r hr with ⟨o, ho, hro⟩
    simp only [List.mem_map] at ho
    rcases ho with ⟨region, _, rfl⟩
    simp only [Outcome.append, List.nil_append] at hro
    rcases outcomeJoin_results_mem _ r hro with ⟨u, hu, hru⟩
    simp only [List.mem_map] at hu
    rcases hu with ⟨c, _, rfl⟩
    rw [processCluster_results] at hru
    by_cases hi : actionInitiated cfg dir c = true
    · rw [if_pos hi] at hru
      simp only [List.mem_singleton] at hru
      rw [hru]
      simp [actionName, h]
    · rw [if_neg hi] at hru
      simp at hru

/-- C4 witness: a dry run over one eligible stopped cluster issues no provider
call and records only `dry-run` entries. -/
theorem C4_dry_run_witness :
    (runHandler cfgDry Direction.start none (fun _ => [clStopped])).providerCalls = [] ∧
    ∀ r ∈ (runHandler cfgDry Direction.start none (fun _ => [clStopped])).results,
      r.action = "dry-run" :=
  C4_dry_run cfgDry Direction.start none (fun _ => [clStopped]) rfl

/-! ### C5 -/

/-- C5: an exception from the action call is caught and isolated: the full
run's result list is exactly the concatenation, over every region and every
cluster, of one entry per successfully-initiated action (dry-run included)
and nothing else — so the handler continues past a raising cluster — and a
cluster whose non-dry-run call raises contributes no entry at all. -/
theorem C5_exception_isolated (cfg : Config) (dir : Direction) (ambient : Option String)
    (world : String → List Cluster) :
    (runHandler cfg dir ambient world).results
      = ((regionsToCheck cfg ambient).map (fun region =>
          (((world region).map (fun c =>
            if actionInitiated cfg dir c = true
            then [(⟨c.id, region, actionName dir cfg.dryRun⟩ : ActionResult)]
            else [])).flatten))).flatten ∧
    (∀ region c, c.raises.isSome → cfg.dryRun = false →
      (processCluster cfg dir region c).results = []) := by
  constructor
  · rw [runHandler_eq, outcomeJoin_results, List.map_map]
    congr 1
    apply List.map_congr_left
    intro region _
    simp only [Function.comp, Outcome.append, List.nil_append]
    rw [outcomeJoin_results, List.map_map]
    congr 1
    apply List.map_congr_left
    intro c _
    exact processCluster_results cfg dir region c
  · intro region c hc hdry
    rw [processCluster_results]
    rcases Option.isSome_iff_exists.mp hc with ⟨ex, hex⟩
    simp [actionInitiated, hdry, hex]

/-- C5 witness: the raising cluster contributes no entry, and the run over a
raising cluster followed by a succeeding one still records the latter. -/
theorem C5_exception_isolated_witness :
    (processCluster cfgLive Direction.start "r1" clRaises).results = [] ∧
    (runHandler cfgLive Direction.start none (fun _ => [clRaises, clAfter])).results
      = [⟨"c-after", "r1", "started"⟩] := by
  constructor
  · exact (C5_exception_isolated cfgLive Direction.start none
      (fun _ => [clRaises, clAfter])).2 "r1" clRaises (by decide) rfl
  · rw [(C5_exception_isolated cfgLive Direction.start none
      (fun _ => [clRaises, clAfter])).1]
    decide

/-! ### C6 -/

/-- C6: a cluster descriptor lacking a usable resource handle (a falsy ARN) is
skipped with exactly the warning log: no tag fetch, no provider call, no
action attempt, no result entry (so the eligibility predicate is never
consulted for it — no structured line carrying it is emitted), and the
per-region fold continues with the remaining clusters. -/
theorem C6_missing_arn (cfg : Config) (dir : Direction) (region : String) (c : Cluster)
    (h : pyTruthyStr c.arn = false) :
    processCluster cfg dir region c
      = ⟨[LogEvent.missingArn c.id], [], [], [], []⟩ ∧
    (∀ rest acc, processRegion cfg dir region (c :: rest) acc
      = processRegion cfg dir region rest
          (acc.append ⟨[LogEvent.missingArn c.id], [], [], [], []⟩)) := by
  have hp : processCluster cfg dir region c
      = ⟨[LogEvent.missingArn c.id], [], [], [], []⟩ := by
    simp [processCluster, h]
  refine ⟨hp, fun rest acc => ?_⟩
  rw [processRegion_cons, hp]

/-- C6 witness: the ARN-less cluster produces only its warning, and processing
a following cluster is unaffected by its presence. -/
theorem C6_missing_arn_witness :
    processCluster cfgLive Direction.start "r1" clNoArn
      = ⟨[LogEvent.missingArn "c-noarn"], [], [], [], []⟩ :=
  (C6_missing_arn cfgLive Direction.start "r1" clNoArn rfl).1

/-! ### C8 -/

/-- C8: the handler's return value is the summary object holding exactly the
results list under the direction key (`started` for start, `stopped` for
stop), the dry-run flag under `dry_run`, the resolved region list under
`regions`, and the active tag configuration under `tag_key` and `tag_value`. -/
theorem C8_summary_shape (cfg : Config) (dir : Direction) (ambient : Option String)
    (world : String → List Cluster) :
    (handlerReturn cfg dir ambient world).resultsKey = summaryKey dir ∧
    (handlerReturn cfg dir ambient world).results
      = (runHandler cfg dir ambient world).results ∧
    (handlerReturn cfg dir ambient world).dryRun = cfg.dryRun ∧
    (handlerReturn cfg dir ambient world).regions = regionsToCheck cfg ambient ∧
    (handlerReturn cfg dir ambient world).tagKey = cfg.tagKey ∧
    (handlerReturn cfg dir ambient world).tagValue = cfg.tagValue ∧
    summaryKey Direction.start = "started" ∧ summaryKey Direction.stop = "stopped" :=
  ⟨rfl, rfl, rfl, rfl, rfl, rfl, rfl, rfl⟩

/-! ### C9 -/

/-- C9: the dry-run flag is enabled iff the configured dry-run string,
lower-cased, is exactly `true`; with any other string the flag is off and the
action executor's invocations coincide with real state-changing provider
calls. -/
theorem C9_dry_run_flag (e : Env) (dir : Direction) (region : String) (c : Cluster) :
    ((loadConfig e).dryRun = true ↔ pyLower e.dryRunVar = "true") ∧
    ((loadConfig e).dryRun = false →
      (processCluster (loadConfig e) dir region c).providerCalls =
        (processCluster (loadConfig e) dir region c).actionAttempts) := by
  constructor
  · simp [loadConfig]
  · exact fun h => providerCalls_eq_attempts (loadConfig e) dir region c h

/-- C9 witness: `DRY_RUN="True "` (trailing blank) does not enable dry-run,
and the provider is really called for the eligible stopped cluster. -/
theorem C9_dry_run_flag_witness :
    (loadConfig ⟨"work-on-business-time", "true", "r1", "True "⟩).dryRun = false ∧
    (processCluster (loadConfig ⟨"work-on-business-time", "true", "r1", "True "⟩)
        Direction.start "r1" clStopped).providerCalls =
      (processCluster (loadConfig ⟨"work-on-business-time", "true", "r1", "True "⟩)
        Direction.start "r1" clStopped).actionAttempts := by
  have h := C9_dry_run_flag ⟨"work-on-business-time", "true", "r1", "True "⟩
    Direction.start "r1" clStopped
  have hd : (loadConfig ⟨"work-on-business-time", "true", "r1", "True "⟩).dryRun
      = false := by
    cases hb : (loadConfig ⟨"work-on-business-time", "true", "r1", "True "⟩).dryRun with
    | false => rfl
    | true => exact absurd (h.1.mp hb) (by decide)
  exact ⟨hd, h.2 hd⟩

/-! ### C10 -/

/-- C10: the configured expected tag value is lower-cased once at load time;
that lower-cased form is the one every eligibility comparison uses and the one
the summary reports under `tag_value`, which therefore never equals a raw
configured string that lower-casing changes. -/
theorem C10_tag_value_lowered (e : Env) (dir : Direction) (ambient : Option String)
    (world : String → List Cluster) (tags : List (String × String)) :
    (loadConfig e).tagValue = pyLower e.tagValueVar ∧
    (handlerReturn (loadConfig e) dir ambient world).tagValue = pyLower e.tagValueVar ∧
    (shouldAct (loadConfig e).tagKey (loadConfig e).tagValue tags = true ↔
      ∃ w, dictGet tags e.tagKeyVar = some w ∧ pyLower w = pyLower e.tagValueVar) ∧
    (¬e.tagValueVar = pyLower e.tagValueVar →
      (handlerReturn (loadConfig e) dir ambient world).tagValue ≠ e.tagValueVar) := by
  refine ⟨rfl, rfl, shouldAct_eq_true_iff _ _ _, fun h hc => h ?_⟩
  exact hc.symm

/-- C10 witness: with raw configured value `True`, the summary's tag value is
not the raw string (it is the lower-cased `true`). -/
theorem C10_tag_value_lowered_witness :
    (handlerReturn (loadConfig ⟨"work-on-business-time", "True", "", "false"⟩)
        Direction.stop none (fun _ => [])).tagValue ≠ "True" :=
  (C10_tag_value_lowered ⟨"work-on-business-time", "True", "", "false"⟩
    Direction.stop none (fun _ => []) []).2.2.2 (by decide)

end DocDb
